import Mathlib

/-
Verification of the Informo crawler's crawl-and-extract pipeline.

The Go sources are shallowly embedded: pure functions become Lean
functions, channel-based control flow becomes explicit lists of
messages, and the external collaborators (goquery selection, the
net/url library, time.Parse, the SQL driver) are modelled either as
explicit function parameters or as small concrete models noted in the
corresponding doc comments.  Strings are manipulated through their
underlying character lists so that every definition evaluates inside
the kernel.
-/

namespace Informo

/-- Character-list prefix test (used by the string helpers below). -/
def isPrefixL : List Char → List Char → Bool
  | [], _ => true
  | _ :: _, [] => false
  | a :: as, b :: bs => a == b && isPrefixL as bs

/-- Does the pattern occur as a contiguous sublist anywhere in the string? -/
def occursL (pat : List Char) : List Char → Bool
  | [] => isPrefixL pat []
  | c :: rest => isPrefixL pat (c :: rest) || occursL pat rest

/-- String-level containment test built on occursL. -/
def containsStr (s pat : String) : Bool :=
  occursL pat.data s.data

/-- Fuel-driven worker for replaceAll.  Models Go's strings.Replace with
n = -1: scan left to right, replacing each non-overlapping occurrence of
pat by rep.  The fuel is the length of the subject string, which is enough
because every step consumes at least one character (the guard skips empty
patterns; no pattern used by this repository is empty). -/
def replaceAllAux : Nat → List Char → List Char → List Char → List Char
  | _, [], _, _ => []
  | 0, s, _, _ => s
  | fuel + 1, c :: rest, pat, rep =>
    if !pat.isEmpty && isPrefixL pat (c :: rest) then
      rep ++ replaceAllAux fuel ((c :: rest).drop pat.length) pat rep
    else
      c :: replaceAllAux fuel rest pat rep

/-- Replace every occurrence of pat in s by rep, as strings.Replace(s, pat, rep, -1)
does in the Go source. -/
def replaceAll (s pat rep : String) : String :=
  String.mk (replaceAllAux s.data.length s.data pat.data rep.data)

/-- The catalog of date-layout placeholders, from the patterns map of the
config package.  Go iterates the map in unspecified order; the list below
fixes the source order, which is harmless because no replacement string
contains a brace and hence no substitution can create a new placeholder
occurrence for the concrete properties proved here. -/
def patterns : List (String × String) :=
  [("DAY_LONG", "Monday"),
   ("DAY_SHORT", "Mon"),
   ("DAY_NUM", "2"),
   ("MONTH_LONG", "January"),
   ("MONTH_SHORT", "Jan"),
   ("MONTH_NUM", "1"),
   ("YEAR_LONG", "2006"),
   ("YEAR_SHORT", "06"),
   ("HOURS", "15"),
   ("MINUTES", "04"),
   ("SECONDS", "05"),
   ("ZONE_OFFSET", "-0700"),
   ("ZONE_ABBREV", "MST")]

/-- The date-layout compiler replaceLayoutPatterns from the config package:
for each catalog entry, replace every occurrence of the braced placeholder
by its literal time.Parse token. -/
def replaceLayoutPatterns (layout : String) : String :=
  patterns.foldl (fun l pr => replaceAll l ("\x7b" ++ pr.1 ++ "\x7d") pr.2) layout

/-- A layout contains no recognized placeholder. -/
def noPlaceholderLayout (layout : String) : Bool :=
  patterns.all (fun pr => !containsStr layout ("\x7b" ++ pr.1 ++ "\x7d"))

theorem replaceAllAux_of_not_occurs (pat rep : List Char) :
    ∀ (s : List Char) (fuel : Nat), occursL pat s = false →
      replaceAllAux fuel s pat rep = s := by
  intro s
  induction s with
  | nil => intro fuel _; cases fuel <;> rfl
  | cons c rest ih =>
    intro fuel h
    have hocc : occursL pat (c :: rest) = false := h
    rw [occursL] at hocc
    have h1 : isPrefixL pat (c :: rest) = false := by
      cases hp : isPrefixL pat (c :: rest) with
      | false => rfl
      | true => rw [hp] at hocc; simp at hocc
    have h2 : occursL pat rest = false := by
      cases ho : occursL pat rest with
      | false => rfl
      | true => rw [ho] at hocc; simp at hocc
    cases fuel with
    | zero => rfl
    | succ f =>
      rw [replaceAllAux]
      rw [h1]
      simp only [Bool.and_false, Bool.false_eq_true, if_false]
      rw [ih f h2]

theorem replaceAll_of_not_contains (s pat rep : String)
    (h : containsStr s pat = false) : replaceAll s pat rep = s := by
  rw [replaceAll, replaceAllAux_of_not_occurs pat.data rep.data s.data s.data.length h]

theorem replaceLayoutPatterns_of_no_placeholder (layout : String)
    (h : noPlaceholderLayout layout = true) :
    replaceLayoutPatterns layout = layout := by
  rw [replaceLayoutPatterns]
  rw [noPlaceholderLayout, List.all_eq_true] at h
  have : ∀ ps : List (String × String),
      (∀ p ∈ ps, (!containsStr layout ("\x7b" ++ p.1 ++ "\x7d")) = true) →
      ps.foldl (fun l pr => replaceAll l ("\x7b" ++ pr.1 ++ "\x7d") pr.2) layout = layout := by
    intro ps
    induction ps with
    | nil => intro _; rfl
    | cons p ps ih =>
      intro hall
      have hp := hall p (by simp)
      have hcontains : containsStr layout ("\x7b" ++ p.1 ++ "\x7d") = false := by
        cases hc : containsStr layout ("\x7b" ++ p.1 ++ "\x7d") with
        | false => rfl
        | true => rw [hc] at hp; simp at hp
      rw [List.foldl_cons, replaceAll_of_not_contains _ _ _ hcontains]
      exact ih (fun q hq => hall q (by simp [hq]))
  exact this patterns h

/-- Claim C6: the date-layout compiler is total and pure; compiling a layout
consisting of exactly one braced catalog placeholder yields exactly the
corresponding literal time.Parse token, every occurrence of every placeholder
in a mixed layout is substituted (witnessed on the spec's mixed layout and on
a layout repeating a placeholder), and a layout containing no recognized
placeholder is returned unchanged. -/
theorem c6_date_translator :
    replaceLayoutPatterns "\x7bDAY_LONG\x7d" = "Monday" ∧
    replaceLayoutPatterns "\x7bDAY_SHORT\x7d" = "Mon" ∧
    replaceLayoutPatterns "\x7bDAY_NUM\x7d" = "2" ∧
    replaceLayoutPatterns "\x7bMONTH_LONG\x7d" = "January" ∧
    replaceLayoutPatterns "\x7bMONTH_SHORT\x7d" = "Jan" ∧
    replaceLayoutPatterns "\x7bMONTH_NUM\x7d" = "1" ∧
    replaceLayoutPatterns "\x7bYEAR_LONG\x7d" = "2006" ∧
    replaceLayoutPatterns "\x7bYEAR_SHORT\x7d" = "06" ∧
    replaceLayoutPatterns "\x7bHOURS\x7d" = "15" ∧
    replaceLayoutPatterns "\x7bMINUTES\x7d" = "04" ∧
    replaceLayoutPatterns "\x7bSECONDS\x7d" = "05" ∧
    replaceLayoutPatterns "\x7bZONE_OFFSET\x7d" = "-0700" ∧
    replaceLayoutPatterns "\x7bZONE_ABBREV\x7d" = "MST" ∧
    replaceLayoutPatterns "\x7bDAY_NUM\x7d \x7bMONTH_LONG\x7d \x7bYEAR_LONG\x7d" = "2 January 2006" ∧
    replaceLayoutPatterns "\x7bDAY_NUM\x7d-\x7bDAY_NUM\x7d" = "2-2" ∧
    (∀ layout : String, noPlaceholderLayout layout = true →
      replaceLayoutPatterns layout = layout) := by
  refine ⟨by decide, by decide, by decide, by decide, by decide, by decide, by decide,
    by decide, by decide, by decide, by decide, by decide, by decide, by decide, by decide, ?_⟩
  exact replaceLayoutPatterns_of_no_placeholder

/-- Claim C6 witness: the general pass-through clause of c6_date_translator
applied to the concrete placeholder-free layout "02/01/2006". -/
theorem c6_date_translator_witness :
    replaceLayoutPatterns "02/01/2006" = "02/01/2006" :=
  c6_date_translator.2.2.2.2.2.2.2.2.2.2.2.2.2.2.2 "02/01/2006" (by decide)

/-- Simplified structural model of a net/url URL value (scheme, host and the
rest of the URL lumped into the path).  net/url is an external collaborator of
the crawler; this model covers the URL shapes the extender manipulates:
absolute URLs, protocol-relative references, absolute paths and relative
paths. -/
structure GoURL where
  scheme : String
  host : String
  path : String
deriving DecidableEq

/-- Control characters are the parse-failure mode the model keeps from
net/url ("net/url: invalid control character in URL"). -/
def isCtlChar (c : Char) : Bool :=
  c.toNat < 32 || c.toNat == 127

/-- Characters allowed in a URL scheme after its leading letter. -/
def isSchemeChar (c : Char) : Bool :=
  c.isAlpha || c.isDigit || c == '+' || c == '-' || c == '.'

/-- A valid scheme is a leading letter followed by scheme characters. -/
def validScheme : List Char → Bool
  | [] => false
  | c :: rest => c.isAlpha && rest.all isSchemeChar

/-- Split a character list at the first occurrence of pat, returning the
part before it and the part after it, or none when pat does not occur. -/
def breakAt (pat : List Char) : List Char → Option (List Char × List Char)
  | [] => if pat.isEmpty then some ([], []) else none
  | c :: rest =>
    if isPrefixL pat (c :: rest) then some ([], (c :: rest).drop pat.length)
    else
      match breakAt pat rest with
      | some (a, b) => some (c :: a, b)
      | none => none

/-- Split host from path: the host runs until the first slash, the path is
the remainder including that slash. -/
def spanHost : List Char → List Char × List Char
  | [] => ([], [])
  | c :: rest =>
    if c == '/' then ([], c :: rest)
    else
      let (a, b) := spanHost rest
      (c :: a, b)

/-- Parse a URL reference without a scheme: a protocol-relative reference
(leading double slash) or a bare path. -/
def parsePathOnly (cs : List Char) : GoURL :=
  match cs with
  | '/' :: '/' :: rest =>
    let hp := spanHost rest
    ⟨"", String.mk hp.1, String.mk hp.2⟩
  | _ => ⟨"", "", String.mk cs⟩

/-- Model of the external collaborator url.Parse, restricted to the failure
mode (control characters) and URL shapes the extender exercises. -/
def parseURL (s : String) : Except String GoURL :=
  if s.data.any isCtlChar then .error "net/url: invalid control character in URL"
  else
    match breakAt (':' :: '/' :: '/' :: []) s.data with
    | some (before, after) =>
      if validScheme before then
        let hp := spanHost after
        .ok ⟨String.mk before, String.mk hp.1, String.mk hp.2⟩
      else .ok (parsePathOnly s.data)
    | none => .ok (parsePathOnly s.data)

/-- Directory part of a path: everything up to and including the last slash. -/
def dirOf (p : List Char) : List Char :=
  (p.reverse.dropWhile (fun c => !(c == '/'))).reverse

/-- Merge a relative path with the base URL's path, as the external
collaborator does for relative references (dot-segment removal is omitted:
the crawler's claims exercise no dot segments). -/
def mergePaths (base ref : GoURL) : String :=
  if base.host ≠ "" && base.path = "" then String.mk ('/' :: ref.path.data)
  else String.mk (dirOf base.path.data ++ ref.path.data)

/-- Model of the external collaborator URL.ResolveReference: an absolute
reference wins outright, a protocol-relative reference takes the base scheme,
an absolute path replaces the base path, an empty reference yields the base,
and a relative path is merged against the base directory. -/
def resolveReference (base ref : GoURL) : GoURL :=
  if ref.scheme ≠ "" then ref
  else if ref.host ≠ "" then ⟨base.scheme, ref.host, ref.path⟩
  else if ref.path = "" then base
  else if ref.path.data.head? == some '/' then ⟨base.scheme, base.host, ref.path⟩
  else ⟨base.scheme, base.host, mergePaths base ref⟩

/-- Render a GoURL back to the string form URL.String() produces for the
shapes of this model. -/
def urlString (u : GoURL) : String :=
  (if u.scheme ≠ "" then u.scheme ++ "://" ++ u.host
   else if u.host ≠ "" then "//" ++ u.host
   else "") ++ u.path

/-- The extender's urlRelativeToAbsolute on one attribute value: parse the
attribute's URL; on a parse error return the error (the attribute is left
unchanged by the caller); otherwise resolve it against the document's URL
and return the replacement value written back into the attribute. -/
def urlRelativeToAbsolute (docURL : GoURL) (target : String) : Except String String :=
  match parseURL target with
  | .error e => .error e
  | .ok u => .ok (urlString (resolveReference docURL u))

/-- One Map pass of Visit over the matched elements' URL attribute values
(contentNodes.Find("a") for href, contentNodes.Find("img") for src): each
value is rewritten in order; a failing value is reported through
Extender.Error and kept unchanged, and the pass continues with the
remaining values.  Returns the final attribute values and the reported
error messages, both in traversal order. -/
def rewritePass (docURL : GoURL) : List String → List String × List String
  | [] => ([], [])
  | a :: rest =>
    match urlRelativeToAbsolute docURL a with
    | .ok v =>
      let r := rewritePass docURL rest
      (v :: r.1, r.2)
    | .error e =>
      let r := rewritePass docURL rest
      (a :: r.1, e :: r.2)

/-- Claim C7: every URL attribute value of the content fragment is rewritten
to its resolution against the page URL when it parses; a value that fails to
parse is reported and kept, and the pass still rewrites every remaining value
(characterized by the map/filterMap equations); concretely, the relative path
"/a/b" on page "https://example.com/x" becomes "https://example.com/a/b", a
protocol-relative reference keeps the page scheme, and a value with a control
character is reported while its successors are still rewritten. -/
theorem c7_link_rewriting :
    (∀ (base : GoURL) (attrs : List String),
      (rewritePass base attrs).1 =
        attrs.map (fun a =>
          match urlRelativeToAbsolute base a with
          | .ok v => v
          | .error _ => a) ∧
      (rewritePass base attrs).2 =
        attrs.filterMap (fun a =>
          match urlRelativeToAbsolute base a with
          | .ok _ => none
          | .error e => some e)) ∧
    urlRelativeToAbsolute ⟨"https", "example.com", "/x"⟩ "/a/b" =
      .ok "https://example.com/a/b" ∧
    urlRelativeToAbsolute ⟨"https", "example.com", "/x"⟩ "//cdn.example.org/i.png" =
      .ok "https://cdn.example.org/i.png" ∧
    rewritePass ⟨"https", "example.com", "/x"⟩ ["/a/b", "bad\x01url", "img/p.png"] =
      (["https://example.com/a/b", "bad\x01url", "https://example.com/img/p.png"],
       ["net/url: invalid control character in URL"]) := by
  refine ⟨?_, rfl, rfl, rfl⟩
  intro base attrs
  induction attrs with
  | nil => exact ⟨rfl, rfl⟩
  | cons a rest ih =>
    cases h : urlRelativeToAbsolute base a with
    | ok v =>
      constructor
      · simp only [rewritePass, h, List.map_cons, ih.1]
      · simp only [rewritePass, h, List.filterMap_cons, ih.2]
    | error e =>
      constructor
      · simp only [rewritePass, h, List.map_cons, ih.1]
      · simp only [rewritePass, h, List.filterMap_cons, ih.2]

/-- Node kinds of golang.org/x/net/html that the extender touches: element
nodes (Data is the tag name) and text nodes (Data is the text). -/
inductive NType where
  | element
  | text
deriving DecidableEq

/-- Shallow model of an html.Node: its kind, its Data field and its child
list (FirstChild is the head of the list). -/
inductive HNode where
  | mk (ntype : NType) (data : String) (children : List HNode)

/-- The Data field of a node. -/
def HNode.data : HNode → String
  | .mk _ d _ => d

/-- The FirstChild pointer of a node: the head of the child list, or none
for Go's nil. -/
def HNode.firstChild : HNode → Option HNode
  | .mk _ _ cs => cs.head?

/-- strings.Trim(s, " \t\n"): strip spaces, tabs and newlines from both
ends. -/
def isTrimChar (c : Char) : Bool :=
  c == ' ' || c == '\t' || c == '\n'

/-- Trim of the extender: strings.Trim(s, " \t\n"). -/
def trimWS (s : String) : String :=
  String.mk (((s.data.dropWhile isTrimChar).reverse.dropWhile isTrimChar).reverse)

/-- The CSS selector set of a website's configuration (empty string models a
selector absent from the configuration, matching the len(...) > 0 guards of
the extender). -/
structure CSSSelectors where
  title : String
  description : String
  content : String
  author : String
  date : String
  thumbnail : String

/-- The optional restrict/exclude crawl filters of a website's configuration
(a compiled regexp is modelled by its match predicate on the URL string). -/
structure CrawlFilters where
  restrict : Option (String → Bool)
  exclude : Option (String → Bool)

/-- The per-website configuration consumed by the crawler. -/
structure Website where
  identifier : String
  startPoint : String
  selectors : CSSSelectors
  dateFormat : String
  maxVisits : Nat
  ignoreQuery : Bool
  filters : CrawlFilters

/-- The fetched page as the extender observes it through the goquery
collaborator: the document URL, the match list of each configured selector,
the href values of the anchors and src values of the images found inside the
content fragment, and the result of serializing the content fragment
(value and optional error, the goquery Html() pair). -/
structure Doc where
  url : GoURL
  titleMatches : List HNode
  contentMatches : List HNode
  dateMatches : List HNode
  descriptionMatches : List HNode
  authorMatches : List HNode
  thumbnailMatches : List HNode
  anchorHrefs : List String
  imgSrcs : List String
  contentHtml : String × Option String

/-- The argument tuple of an e.db.SaveArticle call made by Visit. -/
structure SaveArgs where
  website : String
  url : GoURL
  title : String
  description : Option String
  content : String
  author : Option String
  date : String
deriving DecidableEq

/-- The zero time.Time value rendered as a string: the date Visit hands to
SaveArticle when time.Parse failed (the Go code keeps the zero value and
carries on). -/
def zeroTimeString : String :=
  "0001-01-01 00:00:00 +0000 UTC"

/-- Outcome of one Visit call: the page was rejected as not an article, the
extraction dereferenced a nil FirstChild (a Go panic), or the extraction ran
to completion with the rewritten href/src attribute values, the error
messages reported through Extender.Error in order, whether a thumbnail was
prepended to the content, and the arguments of the SaveArticle call that
Visit always performs at the end of a completed extraction. -/
inductive VisitOutcome where
  | notArticle
  | crashed
  | completed (rewrittenHrefs : List String) (rewrittenSrcs : List String)
      (errors : List String) (thumbPrepended : Bool) (save : SaveArgs)
deriving DecidableEq

/-- Whether the outcome is the nil-dereference crash. -/
def VisitOutcome.isCrashed : VisitOutcome → Bool
  | .crashed => true
  | _ => false

/-- The errors reported during the visit (empty unless completed). -/
def VisitOutcome.reported : VisitOutcome → List String
  | .completed _ _ errs _ _ => errs
  | _ => []

/-- The SaveArticle arguments of a completed visit. -/
def VisitOutcome.saveArgs : VisitOutcome → Option SaveArgs
  | .completed _ _ _ _ sa => some sa
  | _ => none

/-- Optional-field extraction of Visit (description): when the selector is
configured and matches, the field is the trimmed Data of the first match's
FirstChild; the FirstChild is dereferenced without a nil check, so a
childless match is a crash (none).  some none means the field was skipped
or had no match. -/
def extractOptField (sel : String) (ms : List HNode) : Option (Option String) :=
  if sel = "" then some none
  else
    match ms with
    | [] => some none
    | n :: _ =>
      match n.firstChild with
      | none => none
      | some fc => some (some (trimWS fc.data))

/-- Author extraction of Visit: like extractOptField, but when the first
child's Data equals "a" (the link-wrapped author case) the code descends one
more FirstChild level, again without a nil check. -/
def extractAuthorField (sel : String) (ms : List HNode) : Option (Option String) :=
  if sel = "" then some none
  else
    match ms with
    | [] => some none
    | n :: _ =>
      match n.firstChild with
      | none => none
      | some fc =>
        if fc.data = "a" then
          match fc.firstChild with
          | none => none
          | some fc2 => some (some (trimWS fc2.data))
        else some (some (trimWS fc.data))

/-- Thumbnail step of Visit: the first match is prepended to the content
fragment when the selector is configured, a match exists and the match's
Data is "img" (only node Data is read here, so no crash is possible). -/
def thumbnailPrepended (sel : String) (ms : List HNode) : Bool :=
  sel ≠ "" &&
    match ms with
    | n :: _ => n.data == "img"
    | [] => false

/-- The FirstChild.Data read Visit performs on the title and date match
lists: none is the nil dereference of a childless match. -/
def firstChildData (ms : List HNode) : Option String :=
  match ms with
  | n :: _ => n.firstChild.map HNode.data
  | [] => none

/-- The extraction body of Visit, run after the page has been classified as
an article, in source order: description, author, thumbnail, the two URL
attribute rewriting passes, content serialization, title and date trimming,
date parsing (keeping the zero time on failure) and the unconditional
SaveArticle call.  none models the nil-FirstChild panic; tp models the
time.Parse collaborator and sv the database SaveArticle collaborator
(returning the error message Visit reports, if any). -/
def visitBody (w : Website) (doc : Doc)
    (tp : String → String → Except String String)
    (sv : SaveArgs → Option String) :
    Option (List String × List String × List String × Bool × SaveArgs) :=
  match extractOptField w.selectors.description doc.descriptionMatches with
  | none => none
  | some description =>
    match extractAuthorField w.selectors.author doc.authorMatches with
    | none => none
    | some author =>
      let thumb := thumbnailPrepended w.selectors.thumbnail doc.thumbnailMatches
      let rh := rewritePass doc.url doc.anchorHrefs
      let rs := rewritePass doc.url doc.imgSrcs
      let htmlErrs : List String :=
        match doc.contentHtml.2 with
        | some e => [e]
        | none => []
      match firstChildData doc.titleMatches with
      | none => none
      | some titleRaw =>
        match firstChildData doc.dateMatches with
        | none => none
        | some dateRaw =>
          let title := trimWS titleRaw
          let date := trimWS dateRaw
          let dt :=
            match tp w.dateFormat date with
            | .ok d => (d, ([] : List String))
            | .error e => (zeroTimeString, [e])
          let sa : SaveArgs :=
            { website := w.identifier
              url := doc.url
              title := title
              description := description
              content := doc.contentHtml.1
              author := author
              date := dt.1 }
          let saveErrs : List String :=
            match sv sa with
            | some e => [e]
            | none => []
          some (rh.1, rs.1, rh.2 ++ rs.2 ++ htmlErrs ++ dt.2 ++ saveErrs, thumb, sa)

/-- Visit of the extender: reject the page as not an article unless the
content selector and the title selector each match exactly once and the date
selector matches at least once; otherwise run the extraction body, whose nil
dereferences surface as a crash. -/
def visit (w : Website) (doc : Doc)
    (tp : String → String → Except String String)
    (sv : SaveArgs → Option String) : VisitOutcome :=
  if doc.contentMatches.length ≠ 1 ∨ doc.titleMatches.length ≠ 1 ∨
      doc.dateMatches.length = 0 then
    .notArticle
  else
    match visitBody w doc tp sv with
    | none => .crashed
    | some r => .completed r.1 r.2.1 r.2.2.1 r.2.2.2.1 r.2.2.2.2

/-- Element-node constructor shorthand. -/
def nodeEl (tag : String) (cs : List HNode) : HNode :=
  .mk .element tag cs

/-- Text-node constructor shorthand. -/
def nodeText (s : String) : HNode :=
  .mk .text s []

/-- Claim C5: a fetched page is classified as an article exactly when the
title selector and the content selector each yield one match and the date
selector yields at least one; every other combination makes Visit return
the not-an-article outcome. -/
theorem c5_article_classification (w : Website) (doc : Doc)
    (tp : String → String → Except String String) (sv : SaveArgs → Option String) :
    visit w doc tp sv = .notArticle ↔
      ¬(doc.titleMatches.length = 1 ∧ doc.contentMatches.length = 1 ∧
        1 ≤ doc.dateMatches.length) := by
  rw [visit]
  split
  · rename_i h
    have hnot : ¬(doc.titleMatches.length = 1 ∧ doc.contentMatches.length = 1 ∧
        1 ≤ doc.dateMatches.length) := by
      rintro ⟨h1, h2, h3⟩
      rcases h with h | h | h <;> omega
    exact iff_of_true rfl hnot
  · rename_i h
    push_neg at h
    have hne : (match visitBody w doc tp sv with
        | none => VisitOutcome.crashed
        | some r => VisitOutcome.completed r.1 r.2.1 r.2.2.1 r.2.2.2.1 r.2.2.2.2) ≠
        VisitOutcome.notArticle := by
      cases hb : visitBody w doc tp sv <;> simp
    exact iff_of_false hne (not_not_intro ⟨h.2.1, h.1, by omega⟩)

/-- Claim C2 (amended): when the trimmed date text of a classified article
fails to parse, Visit reports the parse error as a non-fatal extraction
error and the crawl continues, but SaveArticle is still called for that
page, with the zero time value as its date. -/
theorem c2_date_parse_failure (w : Website) (doc : Doc)
    (tp : String → String → Except String String) (sv : SaveArgs → Option String)
    (cn tn dn tc dc : HNode) (dns : List HNode) (em : String)
    (hc : doc.contentMatches = [cn]) (ht : doc.titleMatches = [tn])
    (hd : doc.dateMatches = dn :: dns)
    (hdesc : w.selectors.description = "") (hauth : w.selectors.author = "")
    (htc : tn.firstChild = some tc) (hdc : dn.firstChild = some dc)
    (hparse : tp w.dateFormat (trimWS dc.data) = .error em) :
    ∃ rh rs errs thumb sa,
      visit w doc tp sv = .completed rh rs errs thumb sa ∧
      em ∈ errs ∧ sa.date = zeroTimeString := by
  rw [visit]
  have hcond : ¬(doc.contentMatches.length ≠ 1 ∨ doc.titleMatches.length ≠ 1 ∨
      doc.dateMatches.length = 0) := by
    simp [hc, ht, hd]
  rw [if_neg hcond]
  have e1 : extractOptField w.selectors.description doc.descriptionMatches = some none := by
    rw [hdesc, extractOptField.eq_def]
    simp
  have e2 : extractAuthorField w.selectors.author doc.authorMatches = some none := by
    rw [hauth, extractAuthorField.eq_def]
    simp
  have e3 : firstChildData doc.titleMatches = some tc.data := by
    simp [ht, firstChildData, htc]
  have e4 : firstChildData doc.dateMatches = some dc.data := by
    simp [hd, firstChildData, hdc]
  rw [visitBody, e1, e2, e3, e4]
  simp only [hparse]
  refine ⟨_, _, _, _, _, rfl, ?_, rfl⟩
  simp [List.mem_append]

/-- The website configuration used by the concrete date-parse-failure page:
only the three required selectors are configured. -/
def wC2 : Website :=
  { identifier := "site"
    startPoint := "https://s/"
    selectors :=
      { title := "h1"
        description := ""
        content := ".content"
        author := ""
        date := ".date"
        thumbnail := "" }
    dateFormat := "2 January 2006"
    maxVisits := 0
    ignoreQuery := false
    filters := ⟨none, none⟩ }

/-- A concrete classified article page whose date text parses against
nothing. -/
def docC2 : Doc :=
  { url := ⟨"https", "s", "/post"⟩
    titleMatches := [nodeEl "h1" [nodeText "Title"]]
    contentMatches := [nodeEl "div" []]
    dateMatches := [nodeEl "span" [nodeText "not a date"]]
    descriptionMatches := []
    authorMatches := []
    thumbnailMatches := []
    anchorHrefs := []
    imgSrcs := []
    contentHtml := ("<p>body</p>", none) }

/-- A time.Parse collaborator that rejects every date text. -/
def tpFail : String → String → Except String String :=
  fun _ _ => .error "cannot parse date"

/-- A time.Parse collaborator that accepts every date text unchanged. -/
def tpOk : String → String → Except String String :=
  fun _ s => .ok s

/-- A SaveArticle collaborator that always succeeds. -/
def svOk : SaveArgs → Option String :=
  fun _ => none

/-- Claim C2 witness: the amended theorem applied to the concrete page
docC2 under the always-failing date parser. -/
theorem c2_date_parse_failure_witness :
    ∃ rh rs errs thumb sa,
      visit wC2 docC2 tpFail svOk = .completed rh rs errs thumb sa ∧
      "cannot parse date" ∈ errs ∧ sa.date = zeroTimeString :=
  c2_date_parse_failure wC2 docC2 tpFail svOk
    (nodeEl "div" []) (nodeEl "h1" [nodeText "Title"])
    (nodeEl "span" [nodeText "not a date"]) (nodeText "Title") (nodeText "not a date")
    [] "cannot parse date" rfl rfl rfl rfl rfl rfl rfl rfl

/-- Claim C2 counterexample: on the concrete page docC2 the date text fails
to parse and the failure is reported, yet Visit still calls SaveArticle for
the page (its argument tuple is present in the outcome), so the claim's
"SaveArticle is not called for that page" is false on the code. -/
theorem c2_counterexample :
    (visit wC2 docC2 tpFail svOk).saveArgs.isSome = true ∧
    "cannot parse date" ∈ (visit wC2 docC2 tpFail svOk).reported := by
  constructor
  · rfl
  · decide

/-- Claim C8 (amended): the author edge case is keyed on the first child's
Data field, not on it being an anchor element: when the author match's
first child has Data "a" (for an element child this means an anchor),
Visit descends one more FirstChild level and returns that node's trimmed
Data; when the first child's Data differs from "a", Visit returns the
first child's trimmed Data. -/
theorem c8_author_edge_case (sel : String) (n fc : HNode) (rest : List HNode)
    (hsel : ¬sel = "") (hfc : n.firstChild = some fc) :
    (fc.data = "a" → ∀ fc2, fc.firstChild = some fc2 →
      extractAuthorField sel (n :: rest) = some (some (trimWS fc2.data))) ∧
    (¬fc.data = "a" →
      extractAuthorField sel (n :: rest) = some (some (trimWS fc.data))) := by
  constructor
  · intro ha fc2 h2
    rw [extractAuthorField, if_neg hsel]
    simp [hfc, ha, h2]
  · intro ha
    rw [extractAuthorField, if_neg hsel]
    simp [hfc, ha]

/-- Claim C8 witness: an author element whose first child is the anchor
element a with text "Jane Doe" yields the anchor's text. -/
theorem c8_author_edge_case_witness :
    extractAuthorField ".author"
      [nodeEl "span" [nodeEl "a" [nodeText "Jane Doe"]]] = some (some "Jane Doe") := by
  have h := (c8_author_edge_case ".author" (nodeEl "span" [nodeEl "a" [nodeText "Jane Doe"]])
    (nodeEl "a" [nodeText "Jane Doe"]) [] (by decide) rfl).1 rfl (nodeText "Jane Doe") rfl
  exact h.trans (by decide)

/-- Claim C8 counterexample: an author match whose first child is a text
node whose entire text is exactly "a" is not an anchor element, so the
claim's "otherwise" branch predicts the trimmed text "a"; the code only
compares FirstChild.Data with "a", takes the anchor branch and dereferences
the text node's missing child, so extraction crashes instead of producing
the text. -/
theorem c8_counterexample :
    extractAuthorField ".author" [nodeEl "div" [nodeText "a"]] = none ∧
    (none : Option (Option String)) ≠ some (some "a") := by
  constructor
  · rfl
  · decide

/-- Website configuration with optional description and author selectors
configured, used by the nil-dereference pages. -/
def wC10 : Website :=
  { identifier := "site"
    startPoint := "https://s/"
    selectors :=
      { title := "h1"
        description := ".desc"
        content := ".content"
        author := ".author"
        date := ".date"
        thumbnail := "" }
    dateFormat := "2 January 2006"
    maxVisits := 0
    ignoreQuery := false
    filters := ⟨none, none⟩ }

/-- Classified article whose single title match has no child node. -/
def docTitleCrash : Doc :=
  { url := ⟨"https", "s", "/post"⟩
    titleMatches := [nodeEl "h1" []]
    contentMatches := [nodeEl "div" []]
    dateMatches := [nodeEl "span" [nodeText "1 January 2006"]]
    descriptionMatches := []
    authorMatches := []
    thumbnailMatches := []
    anchorHrefs := []
    imgSrcs := []
    contentHtml := ("<p>body</p>", none) }

/-- Classified article whose first date match has no child node. -/
def docDateCrash : Doc :=
  { docTitleCrash with
    titleMatches := [nodeEl "h1" [nodeText "Title"]]
    dateMatches := [nodeEl "span" []] }

/-- Classified article whose single description match has no child node. -/
def docDescCrash : Doc :=
  { docTitleCrash with
    titleMatches := [nodeEl "h1" [nodeText "Title"]]
    descriptionMatches := [nodeEl "p" []] }

/-- Classified article whose single author match has no child node. -/
def docAuthorCrash : Doc :=
  { docTitleCrash with
    titleMatches := [nodeEl "h1" [nodeText "Title"]]
    authorMatches := [nodeEl "p" []] }

/-- Claim C10: the extraction step of Visit is not total: it dereferences
FirstChild without a nil check, so concrete classified articles in which
the matched title, date, description or author element has no child node
each drive Visit into a nil-pointer dereference. -/
theorem c10_nil_deref :
    (visit wC10 docTitleCrash tpOk svOk).isCrashed = true ∧
    (visit wC10 docDateCrash tpOk svOk).isCrashed = true ∧
    (visit wC10 docDescCrash tpOk svOk).isCrashed = true ∧
    (visit wC10 docAuthorCrash tpOk svOk).isCrashed = true := by
  refine ⟨rfl, rfl, rfl, rfl⟩

/-- Model of sql.NullString: a validity flag plus the string payload. -/
structure NullString where
  valid : Bool
  str : String
deriving DecidableEq

/-- The nullable mapping insertArticle performs on its optional arguments:
a nil pointer becomes an invalid NullString with the zero string. -/
def nullableOf : Option String → NullString
  | none => ⟨false, ""⟩
  | some s => ⟨true, s⟩

/-- The argument tuple handed to the prepared INSERT statement. -/
structure InsertArgs where
  website : String
  url : String
  title : String
  description : NullString
  content : String
  author : NullString
  date : String
deriving DecidableEq

/-- insertArticle of the articles statements: map the optional description
and author through sql.NullString and execute the prepared insert (the SQL
driver is the external collaborator exec, returning the error message of a
failed execution).  Returns the executed argument tuple together with the
driver's result. -/
def insertArticle (exec : InsertArgs → Option String)
    (website url title : String) (description : Option String)
    (content : String) (author : Option String) (date : String) :
    InsertArgs × Option String :=
  let args : InsertArgs :=
    { website := website
      url := url
      title := title
      description := nullableOf description
      content := content
      author := nullableOf author
      date := date }
  (args, exec args)

/-- Outcome of one SaveArticle call: rejected by the scheme check before any
insertion, or an insertion attempted with the recorded argument tuple and
the driver's result. -/
inductive SaveOutcome where
  | schemeError (msg : String)
  | insertAttempted (args : InsertArgs) (result : Option String)
deriving DecidableEq

/-- SaveArticle of the database package: reject the article when its URL's
scheme is neither http nor https, otherwise insert it through
insertArticle, passing the URL rendered back to a string. -/
def saveArticle (exec : InsertArgs → Option String) (website : String)
    (articleURL : GoURL) (title : String) (description : Option String)
    (content : String) (author : Option String) (date : String) : SaveOutcome :=
  if articleURL.scheme ≠ "http" ∧ articleURL.scheme ≠ "https" then
    .schemeError ("Unsupported protocol scheme for provided URL: " ++ articleURL.scheme)
  else
    let r := insertArticle exec website (urlString articleURL) title description
      content author date
    .insertAttempted r.1 r.2

/-- Claim C9: SaveArticle returns the unsupported-scheme error and performs
no insertion whenever the article URL's scheme is neither http nor https,
and for an http or https URL the scheme check passes and the insertion is
attempted with the driver. -/
theorem c9_save_article_scheme (exec : InsertArgs → Option String)
    (website : String) (u : GoURL) (title : String) (description : Option String)
    (content : String) (author : Option String) (date : String) :
    (u.scheme ≠ "http" → u.scheme ≠ "https" →
      saveArticle exec website u title description content author date =
        .schemeError ("Unsupported protocol scheme for provided URL: " ++ u.scheme)) ∧
    (u.scheme = "http" ∨ u.scheme = "https" →
      ∃ args, saveArticle exec website u title description content author date =
        .insertAttempted args (exec args)) := by
  constructor
  · intro h1 h2
    rw [saveArticle, if_pos ⟨h1, h2⟩]
  · intro h
    have hne : ¬(u.scheme ≠ "http" ∧ u.scheme ≠ "https") := by
      rcases h with h | h <;> simp [h]
    rw [saveArticle, if_neg hne]
    exact ⟨_, rfl⟩

/-- Claim C9 witness: a ftp-scheme URL is rejected without insertion and an
https-scheme URL reaches the driver. -/
theorem c9_save_article_scheme_witness :
    (saveArticle (fun _ => none) "site" ⟨"ftp", "host", "/f"⟩ "t" none "c" none "d" =
      .schemeError ("Unsupported protocol scheme for provided URL: " ++ "ftp")) ∧
    (∃ args, saveArticle (fun _ => none) "site" ⟨"https", "host", "/f"⟩ "t" none "c" none "d" =
      .insertAttempted args ((fun (_ : InsertArgs) => (none : Option String)) args)) :=
  ⟨(c9_save_article_scheme (fun _ => none) "site" ⟨"ftp", "host", "/f"⟩
      "t" none "c" none "d").1 (by decide) (by decide),
   (c9_save_article_scheme (fun _ => none) "site" ⟨"https", "host", "/f"⟩
      "t" none "c" none "d").2 (Or.inr rfl)⟩

/-- Terminal result of the gocrawl collaborator's Run call for one site:
clean completion (queue exhausted), the dedicated max-visits error, or any
other error. -/
inductive GocrawlResult where
  | ok
  | errMaxVisits
  | errOther (msg : String)

/-- The message of the gocrawl.ErrMaxVisits sentinel (external collaborator
constant). -/
def errMaxVisitsMessage : String :=
  "the maximum number of visits is reached"

/-- launchCrawler of the crawler package, as the two lists of messages it
sends, in order, on errChan and endChan: a non-max-visits error is wrapped
as "Crawling failed: ..." and raised on errChan; then ANY non-nil error —
including ErrMaxVisits, which the first guard deliberately does not clear —
has its message sent on endChan; finally an unconditional empty message is
sent (it is never received once an earlier endChan message returned Run). -/
def launchCrawlerMsgs : GocrawlResult → List String × List String
  | .ok => ([], [""])
  | .errMaxVisits => ([], [errMaxVisitsMessage, ""])
  | .errOther m => (["Crawling failed: " ++ m], ["Crawling failed: " ++ m, ""])

/-- The errors Run's select loop logs before terminating: every errChan
message (each is sent before the first endChan message). -/
def runLoggedErrors (r : GocrawlResult) : List String :=
  (launchCrawlerMsgs r).1

/-- The stop reason Run returns: the first message received on endChan. -/
def runStopReason (r : GocrawlResult) : String :=
  (launchCrawlerMsgs r).2.headD ""

/-- Claim C1 counterexample: when the underlying crawler stops because the
configured maxVisits was reached, Run's stop reason is the ErrMaxVisits
message, not the empty string — the claim's clean completion (empty stop
reason) is false on the code. -/
theorem c1_counterexample : runStopReason .errMaxVisits ≠ "" := by
  decide

/-- Claim C1 (amended): reaching maxVisits ends the run with the
ErrMaxVisits message as the (non-empty) stop reason; the error is not
raised on the error channel (it is not treated as a crawl failure), while
a run whose queue empties cleanly returns the empty stop reason. -/
theorem c1_max_visits_stop_reason :
    runStopReason .errMaxVisits = errMaxVisitsMessage ∧
    errMaxVisitsMessage ≠ "" ∧
    runLoggedErrors .errMaxVisits = [] ∧
    runStopReason .ok = "" := by
  refine ⟨rfl, by decide, rfl, rfl⟩

/-- Filter of the extender: keep a discovered link exactly when gocrawl
reports it not yet visited or enqueued.  The website configuration and the
link's URL are available through the receiver and the URL context but are
not consulted. -/
def Filter (w : Website) (url : String) (isVisited : Bool) : Bool :=
  !isVisited

/-- Modelled from the spec: the filter policy of section 4.3 — a discovered
link is kept only if it has not been visited or queued, matches the
restrict pattern when one is configured, and does not match the exclude
pattern when one is configured.  Stated for refinement comparison against
Filter. -/
def specFilterKeep (f : CrawlFilters) (isVisited : Bool) (url : String) : Bool :=
  !isVisited &&
    (match f.restrict with
     | some p => p url
     | none => true) &&
    (match f.exclude with
     | some p => !p url
     | none => true)

/-- Concrete filters: restrict to the news section, exclude tag pages (the
spec's example regexps "^https://s/news/" and "/tag/", modelled by their
match predicates). -/
def filtersC3 : CrawlFilters :=
  { restrict := some (fun u => isPrefixL "https://s/news/".data u.data)
    exclude := some (fun u => containsStr u "/tag/") }

/-- Website configured with both crawl filters. -/
def wC3 : Website :=
  { identifier := "s"
    startPoint := "https://s/news/"
    selectors :=
      { title := "h1"
        description := ""
        content := ".c"
        author := ""
        date := ".d"
        thumbnail := "" }
    dateFormat := ""
    maxVisits := 0
    ignoreQuery := false
    filters := filtersC3 }

/-- Claim C3 counterexample: the unvisited link "https://s/news/tag/x"
matches the configured restrict pattern and the configured exclude pattern,
so the claim says it is dropped; Filter keeps it, because it never consults
the patterns. -/
theorem c3_counterexample :
    Filter wC3 "https://s/news/tag/x" false = true ∧
    specFilterKeep wC3.filters false "https://s/news/tag/x" = false ∧
    (match wC3.filters.restrict with
     | some p => p "https://s/news/tag/x"
     | none => false) = true ∧
    (match wC3.filters.exclude with
     | some p => p "https://s/news/tag/x"
     | none => false) = true := by
  refine ⟨rfl, by decide, by decide, by decide⟩

/-- Claim C3 (amended): a discovered link is enqueued exactly when it has
not been visited or already queued; the configured restrict and exclude
patterns are not consulted by Filter (its result does not depend on the
website configuration or the URL), so in particular a link matching both
patterns is still enqueued when unvisited. -/
theorem c3_filter_policy (w w2 : Website) (url url2 : String) (isVisited : Bool) :
    (Filter w url isVisited = true ↔ isVisited = false) ∧
    Filter w url isVisited = Filter w2 url2 isVisited := by
  constructor
  · cases isVisited <;> simp [Filter]
  · rfl

/-- The logrus levels the orchestrator uses for crawler terminations. -/
inductive LogLevel where
  | info
  | warn
  | error
deriving DecidableEq

/-- The per-crawler termination handler of main: once Run returns, a
non-empty stop reason is logged as "Crawler stopped: reason" at info level,
and an empty stop reason is logged as "Crawler stopped" at warning level. -/
def terminationLog (stopReason : String) : LogLevel × String :=
  if stopReason.length > 0 then (.info, "Crawler stopped: " ++ stopReason)
  else (.warn, "Crawler stopped")

/-- The orchestrator of main: every crawler's termination is handled (the
WaitGroup makes main return only after each goroutine has logged its
crawler's stop reason), so the handled log list covers every stop reason. -/
def orchestrate (stopReasons : List String) : List (LogLevel × String) :=
  stopReasons.map terminationLog

/-- Claim C4 counterexample: a clean termination (empty stop reason) is
logged at warning level, not info, and an aborted termination (non-empty
stop reason) is logged at info level, not warning/error — the claim's level
assignment is inverted on the code. -/
theorem c4_counterexample :
    (terminationLog "").1 = .warn ∧
    (terminationLog "").1 ≠ .info ∧
    (terminationLog "Crawling failed: boom").1 = .info := by
  refine ⟨rfl, by decide, rfl⟩

/-- Claim C4 (amended): the orchestrator handles every Frontier termination
before returning (one log per stop reason), logging non-empty stop reasons
at info level and empty stop reasons at warning level. -/
theorem c4_termination_logging :
    (∀ rs : List String, (orchestrate rs).length = rs.length) ∧
    (∀ r : String, r ≠ "" → terminationLog r = (.info, "Crawler stopped: " ++ r)) ∧
    (∀ r : String, r = "" → terminationLog r = (.warn, "Crawler stopped")) := by
  refine ⟨fun rs => List.length_map _ _, ?_, ?_⟩
  · intro r hr
    have hlen : 0 < r.length := by
      cases r with
      | mk data =>
        cases data with
        | nil => exact absurd rfl hr
        | cons c cs => simp [String.length]
    rw [terminationLog, if_pos hlen]
  · intro r hr
    subst hr
    rfl

/-- Claim C4 witness: the amended theorem applied to a two-site run with one
clean and one aborted termination. -/
theorem c4_termination_logging_witness :
    (orchestrate ["", "Crawling failed: boom"]).length = 2 ∧
    terminationLog "Crawling failed: boom" =
      (.info, "Crawler stopped: " ++ "Crawling failed: boom") ∧
    terminationLog "" = (.warn, "Crawler stopped") :=
  ⟨(c4_termination_logging.1 ["", "Crawling failed: boom"]).trans rfl,
   c4_termination_logging.2.1 "Crawling failed: boom" (by decide),
   c4_termination_logging.2.2 "" rfl⟩

end Informo
